import Mathlib

/-
Shallow embedding of src/internal/environment/environment.go (package
environment of the sail repository).

Strings are modelled as lists of characters (Go strings are sequences of
runes for the string functions used here). Go errors are modelled by their
message text, since the code classifies errors by substring matching on
that text; xerrors.Errorf wrapping with a trailing %w renders as
"context: inner" and is modelled by wrap.

The docker client is modelled as an oracle recording the outcome each
runtime call would have; lifecycle functions additionally return the list
of runtime operations they performed, so that claims about operation
ordering (inspect before start, stop before remove) are statable.

The tar codec (archive/tar) is external to the repository and is modelled
at entry granularity: the incoming stream is a sequence of decoded
entries, each of which may instead fail at the read-header, write-header
or copy phase, and the outgoing archive is a sequence of entry records
terminated by an end-of-archive trailer token.
-/

namespace Env

/-- Characters of a Go string literal. -/
def str (s : String) : List Char := s.toList

/-- A Go error, identified by its message text (the result of Error()). -/
structure GoErr where
  msg : List Char
deriving DecidableEq, Repr

/-- xerrors.Errorf with a context string and a trailing %w verb:
the wrapped message renders as "context: inner". -/
def wrap (ctx : List Char) (e : GoErr) : GoErr :=
  GoErr.mk (ctx ++ str ": " ++ e.msg)

/-- Go strings.HasPrefix fragment used to state substring facts:
startsWith pat s is true when pat occurs at the start of s. -/
def startsWith : List Char → List Char → Bool
  | [], _ => true
  | _ :: _, [] => false
  | p :: ps, c :: cs => p == c && startsWith ps cs

/-- Go strings.Contains(s, sub): sub occurs somewhere in s. -/
def goContains : List Char → List Char → Bool
  | [], sub => startsWith sub []
  | c :: rest, sub => startsWith sub (c :: rest) || goContains rest sub

/-- Go strings.TrimLeft(s, cutset): removes the longest leading run of
characters of s that are members of cutset. -/
def goTrimLeft (s cutset : List Char) : List Char :=
  s.dropWhile (fun c => cutset.contains c)

/-- Go filepath.Base (unix rules): final element of the path after
removing trailing slashes; "." for the empty path, "/" for all-slash
paths. -/
def filepathBase (path : List Char) : List Char :=
  if path = [] then ['.']
  else
    let p := (path.reverse.dropWhile (fun c => c == '/')).reverse
    let b := (p.reverse.takeWhile (fun c => !(c == '/'))).reverse
    if b = [] then ['/'] else b

/-- isPathNotFound from environment.go: a non-nil error whose text
contains "No such container:path". -/
def isPathNotFound : Option GoErr → Bool
  | none => false
  | some e => goContains e.msg (str "No such container:path")

/-- isContainerNotFoundError from environment.go: a non-nil error whose
text contains "No such container". -/
def isContainerNotFoundError : Option GoErr → Bool
  | none => false
  | some e => goContains e.msg (str "No such container")

/-- var ErrMissingContainer = xerrors.Errorf("missing container"). -/
def ErrMissingContainer : GoErr := GoErr.mk (str "missing container")

/-- var errNoSuchFile = xerrors.Errorf("no such file"). -/
def errNoSuchFile : GoErr := GoErr.mk (str "no such file")

/-- A tar header: the name plus the metadata fields that pass through the
transcoder untouched. -/
structure Header where
  name : List Char
  typeflag : Nat
  mode : Int
  uid : Nat
  gid : Nat
  size : Nat
  mtime : Int
  linkname : List Char
deriving DecidableEq, Repr

/-- A decoded archive entry: header plus payload bytes. -/
structure Entry where
  hdr : Header
  payload : List Nat
deriving DecidableEq, Repr

/-- The header with its name replaced (hdr.Name = n; all other fields
kept). -/
def renameHdr (h : Header) (n : List Char) : Header :=
  Header.mk n h.typeflag h.mode h.uid h.gid h.size h.mtime h.linkname

/-- One step of the incoming tar stream: the decoded entry, together with
the outcome the writer calls for this entry would have (tw.WriteHeader
and io.Copy may fail). -/
structure EntryStep where
  ent : Entry
  writeHeaderErr : Option GoErr
  copyErr : Option GoErr
deriving DecidableEq, Repr

/-- The incoming tar stream as seen through tr.Next(): a sequence of
entries ending either in io.EOF or in a decode error. -/
inductive TarStream where
  | eof
  | readError (e : GoErr)
  | cons (s : EntryStep) (rest : TarStream)
deriving DecidableEq, Repr

/-- The entries carried by the stream (up to its terminator). -/
def streamEntries : TarStream → List Entry
  | TarStream.eof => []
  | TarStream.readError _ => []
  | TarStream.cons s rest => s.ent :: streamEntries rest

/-- True when some phase of the entry loop fails on this stream. -/
def streamFails : TarStream → Bool
  | TarStream.eof => false
  | TarStream.readError _ => true
  | TarStream.cons s rest =>
    s.writeHeaderErr.isSome || s.copyErr.isSome || streamFails rest

/-- The entry with its header name rewritten by
hdr.Name = strings.TrimLeft(hdr.Name, base+"/"). -/
def renameEntry (base : List Char) (e : Entry) : Entry :=
  Entry.mk (renameHdr e.hdr (goTrimLeft e.hdr.name (base ++ ['/']))) e.payload

/-- The for loop of readPath: read each header, rewrite its name, write
header and payload; any failure aborts with the phase wrapped in. On
success the list of entries written to the outgoing archive is returned. -/
def tarLoop (base : List Char) : TarStream → Except GoErr (List Entry)
  | TarStream.eof => Except.ok []
  | TarStream.readError e =>
    Except.error (wrap (str "failed to read from tar reader") e)
  | TarStream.cons s rest =>
    match s.writeHeaderErr with
    | some e => Except.error (wrap (str "failed to write header") e)
    | none =>
      match s.copyErr with
      | some e => Except.error (wrap (str "failed to copy") e)
      | none =>
        match tarLoop base rest with
        | Except.error e => Except.error e
        | Except.ok es => Except.ok (renameEntry base s.ent :: es)

/-- A token of the serialized outgoing archive: an entry record, or the
end-of-archive trailer written by tw.Close(). -/
inductive TarToken where
  | record (ent : Entry)
  | trailer
deriving DecidableEq, Repr

/-- Serialization performed by the tar writer over the whole call: the
records in write order followed by the trailer. -/
def encodeEntries (es : List Entry) : List TarToken :=
  es.map TarToken.record ++ [TarToken.trailer]

/-- A standard tar reader over the produced tokens: a well-formed archive
is a sequence of records terminated by the trailer. -/
def decodeTar : List TarToken → Option (List Entry)
  | [TarToken.trailer] => some []
  | TarToken.record e :: rest => (decodeTar rest).map (fun es => e :: es)
  | _ => none

/-- Outcome of cli.CopyFromContainer together with the outcome
tw.Close() would have on this call. -/
structure CopyOk where
  stream : TarStream
  closeErr : Option GoErr
deriving DecidableEq, Repr

/-- Result of the streamed-copy request for the path. -/
inductive CopyResult where
  | ok (r : CopyOk)
  | err (e : GoErr)
deriving DecidableEq, Repr

/-- The quote character used in the readPath error message. -/
def sq : Char := Char.ofNat 39

/-- readPath from environment.go: classify a copy failure (path-scoped
not-found sentinel, or wrapped transport error), otherwise transcode the
stream entry by entry and finalize the outgoing archive. -/
def readPath (path : List Char) (copy : CopyResult) : Except GoErr (List TarToken) :=
  match copy with
  | CopyResult.err e =>
    if isPathNotFound (some e) then Except.error errNoSuchFile
    else
      Except.error
        (wrap (str "failed to get reader for path " ++ [sq] ++ path ++ [sq]) e)
  | CopyResult.ok r =>
    match tarLoop (filepathBase path) r.stream with
    | Except.error e => Except.error e
    | Except.ok es =>
      match r.closeErr with
      | some e => Except.error (wrap (str "failed to close tar writer") e)
      | none => Except.ok (encodeEntries es)

/-- types.ContainerJSON: the inspection snapshot; opaque pass-through
metadata, carried unmodified into the handle. -/
structure ContainerJSON where
  id : Nat
deriving DecidableEq, Repr

/-- The Environment handle: the name paired with the inspection
snapshot. -/
structure Environment where
  name : List Char
  cnt : ContainerJSON
deriving DecidableEq, Repr

/-- The outcome each docker runtime call would have on this container
name during the call being modelled (nil error means the call
succeeds). -/
structure DockerOracle where
  inspectErr : Option GoErr
  inspectCnt : ContainerJSON
  startErr : Option GoErr
  stopErr : Option GoErr
  removeErr : Option GoErr
deriving DecidableEq, Repr

/-- Runtime operations, recorded in the order they are issued. -/
inductive DockerOp where
  | inspectOp
  | startOp
  | stopOp
  | removeOp
deriving DecidableEq, Repr

/-- Start from environment.go: one ContainerStart call, its failure
wrapped with context. Returns the error outcome and the operations
performed. -/
def Start (o : DockerOracle) : Option GoErr × List DockerOp :=
  (o.startErr.map (wrap (str "failed to start container")), [DockerOp.startOp])

/-- Stop from environment.go: one ContainerStop call, its failure
wrapped with context. -/
def Stop (o : DockerOracle) : Option GoErr × List DockerOp :=
  (o.stopErr.map (wrap (str "failed to stop container")), [DockerOp.stopOp])

/-- Remove from environment.go: one ContainerRemove call, its failure
wrapped with context. -/
def Remove (o : DockerOracle) : Option GoErr × List DockerOp :=
  (o.removeErr.map (wrap (str "failed to remove container")), [DockerOp.removeOp])

/-- FindEnvironment from environment.go: inspect the container by name;
a not-found inspection error becomes ErrMissingContainer, any other
inspection error is wrapped; on success the handle is built and Start is
invoked before the handle is returned. -/
def FindEnvironment (name : List Char) (o : DockerOracle) :
    Except GoErr Environment × List DockerOp :=
  if isContainerNotFoundError o.inspectErr then
    (Except.error ErrMissingContainer, [DockerOp.inspectOp])
  else
    match o.inspectErr with
    | some e =>
      (Except.error (wrap (str "failed to inspect container") e), [DockerOp.inspectOp])
    | none =>
      let env := Environment.mk name o.inspectCnt
      match Start o with
      | (some e, t) => (Except.error e, DockerOp.inspectOp :: t)
      | (none, t) => (Except.ok env, DockerOp.inspectOp :: t)

/-- Purge from environment.go: Stop, then Remove only if Stop succeeded;
the first failure is returned unchanged. -/
def Purge (o : DockerOracle) : Option GoErr × List DockerOp :=
  match Stop o with
  | (some e, t) => (some e, t)
  | (none, t) =>
    match Remove o with
    | (r, t2) => (r, t ++ t2)

/-- Stated from the spec sentence for the name rewrite: the longest
possible leading run of characters drawn from the character set of B
together with the slash is removed (a character-class trim from the
left). Used to compare the code's TrimLeft call against the spec's
wording. -/
def stripClassSpec (B n : List Char) : List Char :=
  n.dropWhile (fun c => decide (c ∈ B ∨ c = '/'))

/-- The four phase context strings readPath wraps codec failures with
(read header, write header, copy payload, finalize). -/
def phaseCtxs : List (List Char) :=
  [str "failed to read from tar reader", str "failed to write header",
   str "failed to copy", str "failed to close tar writer"]

/-- True when the error message is tagged with one of the four failing
phases of the transcoding loop. -/
def phaseWrapped (e : GoErr) : Bool :=
  phaseCtxs.any (fun ctx => startsWith (ctx ++ str ": ") e.msg)

/-! Helper lemmas shared by the claim theorems. -/

/-- A list is a prefix of itself followed by anything. -/
theorem startsWith_append (p t : List Char) : startsWith p (p ++ t) = true := by
  induction p with
  | nil => rfl
  | cons c cs ih => simp [startsWith, ih]

/-- Shortening the pattern keeps it a prefix. -/
theorem startsWith_of_append (pre : List Char) :
    ∀ (ext s : List Char), startsWith (pre ++ ext) s = true → startsWith pre s = true := by
  induction pre with
  | nil => intro ext s _; rfl
  | cons c cs ih =>
    intro ext s h
    cases s with
    | nil => simp [startsWith] at h
    | cons d ds =>
      simp [startsWith] at h ⊢
      exact ⟨h.1, ih ext ds h.2⟩

/-- Shortening the needle keeps it a substring. -/
theorem goContains_of_append (pre ext : List Char) :
    ∀ s : List Char, goContains s (pre ++ ext) = true → goContains s pre = true := by
  intro s
  induction s with
  | nil =>
    intro h
    simp only [goContains] at h ⊢
    cases pre with
    | nil => rfl
    | cons c cs => simp [startsWith] at h
  | cons c cs ih =>
    intro h
    simp only [goContains, Bool.or_eq_true] at h ⊢
    cases h with
    | inl h => exact Or.inl (startsWith_of_append pre ext (c :: cs) h)
    | inr h => exact Or.inr (ih h)

/-- The wrap of an error by a phase context starts with that context. -/
theorem startsWith_wrap (ctx : List Char) (e : GoErr) :
    startsWith (ctx ++ str ": ") (wrap ctx e).msg = true := by
  show startsWith (ctx ++ str ": ") (ctx ++ str ": " ++ e.msg) = true
  exact startsWith_append (ctx ++ str ": ") e.msg

/-- Wrapping with a registered phase context tags the error as
phase-wrapped. -/
theorem phaseWrapped_wrap (ctx : List Char) (e : GoErr) (h : ctx ∈ phaseCtxs) :
    phaseWrapped (wrap ctx e) = true := by
  simp only [phaseWrapped, List.any_eq_true]
  exact ⟨ctx, h, startsWith_wrap ctx e⟩

/-- The code's TrimLeft with cutset base+"/" is exactly the longest
leading run of characters from the character set of base together with
the slash. -/
theorem goTrimLeft_eq_stripClassSpec (B n : List Char) :
    goTrimLeft n (B ++ ['/']) = stripClassSpec B n := by
  unfold goTrimLeft stripClassSpec
  congr 1
  funext c
  simp [List.mem_append]

/-- Whatever the loop accepted is the stream's entries with names
rewritten, in order. -/
theorem tarLoop_ok_eq (base : List Char) (s : TarStream) :
    ∀ es, tarLoop base s = Except.ok es → es = (streamEntries s).map (renameEntry base) := by
  induction s with
  | eof =>
    intro es h
    simp [tarLoop] at h
    subst h
    rfl
  | readError e =>
    intro es h
    simp [tarLoop] at h
  | cons st rest ih =>
    intro es h
    simp only [tarLoop] at h
    cases hw : st.writeHeaderErr with
    | some e => rw [hw] at h; simp at h
    | none =>
      rw [hw] at h
      cases hc : st.copyErr with
      | some e => rw [hc] at h; simp at h
      | none =>
        rw [hc] at h
        cases hr : tarLoop base rest with
        | error e => rw [hr] at h; simp at h
        | ok es0 =>
          rw [hr] at h
          simp at h
          simp [streamEntries, ← h, ih es0 hr]

/-- A stream with no injected failure is fully transcoded. -/
theorem tarLoop_ok_of_not_fails (base : List Char) (s : TarStream) :
    streamFails s = false →
    tarLoop base s = Except.ok ((streamEntries s).map (renameEntry base)) := by
  induction s with
  | eof => intro _; rfl
  | readError e => intro h; simp [streamFails] at h
  | cons st rest ih =>
    intro h
    simp only [streamFails, Bool.or_eq_false_iff] at h
    obtain ⟨⟨hw, hc⟩, hr⟩ := h
    cases hw2 : st.writeHeaderErr with
    | some e => rw [hw2] at hw; simp at hw
    | none =>
      cases hc2 : st.copyErr with
      | some e => rw [hc2] at hc; simp at hc
      | none =>
        simp only [tarLoop, hw2, hc2, ih hr]
        simp [streamEntries]

/-- A stream with an injected failure makes the loop fail with a
phase-tagged error. -/
theorem tarLoop_error_of_fails (base : List Char) (s : TarStream) :
    streamFails s = true →
    ∃ e, tarLoop base s = Except.error e ∧ phaseWrapped e = true := by
  induction s with
  | eof => intro h; simp [streamFails] at h
  | readError e =>
    intro _
    exact ⟨wrap (str "failed to read from tar reader") e, rfl,
      phaseWrapped_wrap _ e (by simp [phaseCtxs])⟩
  | cons st rest ih =>
    intro h
    simp only [tarLoop]
    cases hw : st.writeHeaderErr with
    | some e =>
      exact ⟨wrap (str "failed to write header") e, rfl,
        phaseWrapped_wrap _ e (by simp [phaseCtxs])⟩
    | none =>
      cases hc : st.copyErr with
      | some e =>
        exact ⟨wrap (str "failed to copy") e, rfl,
          phaseWrapped_wrap _ e (by simp [phaseCtxs])⟩
      | none =>
        simp only [streamFails, hw, hc, Option.isSome_none, Bool.false_or] at h
        obtain ⟨e, he, hp⟩ := ih h
        exact ⟨e, by rw [he], hp⟩

/-- Decoding the serialized archive recovers exactly the written
entries. -/
theorem decodeTar_encodeEntries (es : List Entry) :
    decodeTar (encodeEntries es) = some es := by
  induction es with
  | nil => rfl
  | cons e rest ih => simp [encodeEntries, decodeTar] at ih ⊢; simp [ih]

/-- Inverting a successful readPath call: the close succeeded and the
returned bytes are the serialization of the renamed input entries. -/
theorem readPath_ok_inv (path : List Char) (r : CopyOk) (toks : List TarToken)
    (h : readPath path (CopyResult.ok r) = Except.ok toks) :
    r.closeErr = none ∧
    toks = encodeEntries ((streamEntries r.stream).map (renameEntry (filepathBase path))) := by
  simp only [readPath] at h
  cases ht : tarLoop (filepathBase path) r.stream with
  | error e => rw [ht] at h; simp at h
  | ok es =>
    rw [ht] at h
    cases hcl : r.closeErr with
    | some e => rw [hcl] at h; simp at h
    | none =>
      rw [hcl] at h
      simp only [Except.ok.injEq] at h
      exact ⟨rfl, by rw [← h, tarLoop_ok_eq _ _ _ ht]⟩

/-- The header with its name erased and all other fields kept, used to
state that the transcoder touches nothing but the name. -/
def eraseName (h : Header) : Header := renameHdr h []

/-! The claim theorems. -/

/-- Claim C1: for every requested path with basename B, every entry name
written to the output archive equals the input entry name with the
longest possible leading run of characters drawn from the character set
of B together with the slash removed — a leading character-class trim
applied from the left only. -/
theorem readPath_names_are_class_trimmed (path : List Char) (r : CopyOk)
    (toks : List TarToken) (h : readPath path (CopyResult.ok r) = Except.ok toks) :
    ∃ es, decodeTar toks = some es ∧
      es.map (fun e => e.hdr.name)
        = (streamEntries r.stream).map
            (fun e => stripClassSpec (filepathBase path) e.hdr.name) := by
  obtain ⟨_, htoks⟩ := readPath_ok_inv path r toks h
  rw [htoks, decodeTar_encodeEntries]
  refine ⟨_, rfl, ?_⟩
  simp [List.map_map, renameEntry, renameHdr, Function.comp,
    goTrimLeft_eq_stripClassSpec]

/-- Witness for C1 on the concrete scenario of the spec: extracting
/data/logs with entries logs/a.log and logs/b.log yields entries named
a.log and b.log. -/
theorem readPath_names_are_class_trimmed_witness :
    ∃ es,
      decodeTar
          [TarToken.record (Entry.mk (Header.mk (str "a.log") 0 420 0 0 3 0 []) [1, 2, 3]),
           TarToken.record (Entry.mk (Header.mk (str "b.log") 0 420 0 0 2 0 []) [4, 5]),
           TarToken.trailer]
        = some es ∧
      es.map (fun e => e.hdr.name)
        = (streamEntries
              (TarStream.cons
                (EntryStep.mk
                  (Entry.mk (Header.mk (str "logs/a.log") 0 420 0 0 3 0 []) [1, 2, 3]) none none)
                (TarStream.cons
                  (EntryStep.mk
                    (Entry.mk (Header.mk (str "logs/b.log") 0 420 0 0 2 0 []) [4, 5]) none none)
                  TarStream.eof))).map
            (fun e => stripClassSpec (filepathBase (str "/data/logs")) e.hdr.name) :=
  readPath_names_are_class_trimmed (str "/data/logs")
    (CopyOk.mk
      (TarStream.cons
        (EntryStep.mk
          (Entry.mk (Header.mk (str "logs/a.log") 0 420 0 0 3 0 []) [1, 2, 3]) none none)
        (TarStream.cons
          (EntryStep.mk
            (Entry.mk (Header.mk (str "logs/b.log") 0 420 0 0 2 0 []) [4, 5]) none none)
          TarStream.eof))
      none)
    _ rfl

/-- Claim C2: re-decoding the output archive of a successful readPath
yields the same number of entries as the input stream, in the same
order, with byte-identical payloads and headers identical in every
field except the name. -/
theorem readPath_roundtrip (path : List Char) (r : CopyOk)
    (toks : List TarToken) (h : readPath path (CopyResult.ok r) = Except.ok toks) :
    ∃ es, decodeTar toks = some es ∧
      es.length = (streamEntries r.stream).length ∧
      es.map Entry.payload = (streamEntries r.stream).map Entry.payload ∧
      es.map (fun e => eraseName e.hdr)
        = (streamEntries r.stream).map (fun e => eraseName e.hdr) := by
  obtain ⟨_, htoks⟩ := readPath_ok_inv path r toks h
  rw [htoks, decodeTar_encodeEntries]
  refine ⟨_, rfl, by simp, ?_, ?_⟩
  · simp [List.map_map, renameEntry, Function.comp]
  · simp [List.map_map, renameEntry, renameHdr, eraseName, Function.comp]

/-- Witness for C2: the concrete two-entry scenario round-trips with
payloads and non-name header fields intact. -/
theorem readPath_roundtrip_witness :
    ∃ es,
      decodeTar
          [TarToken.record (Entry.mk (Header.mk (str "a.log") 0 420 0 0 3 0 []) [1, 2, 3]),
           TarToken.record (Entry.mk (Header.mk (str "b.log") 0 420 0 0 2 0 []) [4, 5]),
           TarToken.trailer]
        = some es ∧
      es.length
        = (streamEntries
            (TarStream.cons
              (EntryStep.mk
                (Entry.mk (Header.mk (str "logs/a.log") 0 420 0 0 3 0 []) [1, 2, 3]) none none)
              (TarStream.cons
                (EntryStep.mk
                  (Entry.mk (Header.mk (str "logs/b.log") 0 420 0 0 2 0 []) [4, 5]) none none)
                TarStream.eof))).length ∧
      es.map Entry.payload
        = (streamEntries
            (TarStream.cons
              (EntryStep.mk
                (Entry.mk (Header.mk (str "logs/a.log") 0 420 0 0 3 0 []) [1, 2, 3]) none none)
              (TarStream.cons
                (EntryStep.mk
                  (Entry.mk (Header.mk (str "logs/b.log") 0 420 0 0 2 0 []) [4, 5]) none none)
                TarStream.eof))).map Entry.payload ∧
      es.map (fun e => eraseName e.hdr)
        = (streamEntries
            (TarStream.cons
              (EntryStep.mk
                (Entry.mk (Header.mk (str "logs/a.log") 0 420 0 0 3 0 []) [1, 2, 3]) none none)
              (TarStream.cons
                (EntryStep.mk
                  (Entry.mk (Header.mk (str "logs/b.log") 0 420 0 0 2 0 []) [4, 5]) none none)
                TarStream.eof))).map (fun e => eraseName e.hdr) :=
  readPath_roundtrip (str "/data/logs")
    (CopyOk.mk
      (TarStream.cons
        (EntryStep.mk
          (Entry.mk (Header.mk (str "logs/a.log") 0 420 0 0 3 0 []) [1, 2, 3]) none none)
        (TarStream.cons
          (EntryStep.mk
            (Entry.mk (Header.mk (str "logs/b.log") 0 420 0 0 2 0 []) [4, 5]) none none)
          TarStream.eof))
      none)
    _ rfl

/-- Claim C4: a streamed-copy failure classified as path-not-found makes
readPath return the distinguished sentinel errNoSuchFile, with no
archive bytes returned. -/
theorem readPath_pathNotFound_sentinel (path : List Char) (e : GoErr)
    (h : isPathNotFound (some e) = true) :
    readPath path (CopyResult.err e) = Except.error errNoSuchFile := by
  simp [readPath, h]

/-- Witness for C4 with the docker daemon error text for a missing path. -/
theorem readPath_pathNotFound_sentinel_witness :
    readPath (str "/data/logs")
        (CopyResult.err
          (GoErr.mk (str "Error response from daemon: No such container:path web1:/data/logs")))
      = Except.error errNoSuchFile :=
  readPath_pathNotFound_sentinel _ _ (by decide)

/-- Claim C7: a zero-entry input stream yields a successful, well-formed
zero-entry output archive: only the end-of-archive trailer is written,
and a standard reader decodes it to the empty entry list. -/
theorem readPath_zero_entries (path : List Char) :
    readPath path (CopyResult.ok (CopyOk.mk TarStream.eof none))
        = Except.ok [TarToken.trailer] ∧
    decodeTar [TarToken.trailer] = some [] :=
  ⟨rfl, rfl⟩

/-- Claim C10: the name rewrite is idempotent for a fixed basename:
running TrimLeft with cutset B plus the slash twice equals running it
once. -/
theorem goTrimLeft_idempotent (n B : List Char) :
    goTrimLeft (goTrimLeft n (B ++ ['/'])) (B ++ ['/']) = goTrimLeft n (B ++ ['/']) :=
  List.dropWhile_idempotent _ _

/-- Counterexample to claim C3 as stated: the docker error text for a
missing path contains "No such container:path", which itself contains
"No such container", so this one error is classified by both
isPathNotFound and isContainerNotFoundError at once. -/
theorem pathNotFound_also_containerNotFound :
    isPathNotFound
        (some (GoErr.mk (str "Error: No such container:path web1:/data"))) = true ∧
    isContainerNotFoundError
        (some (GoErr.mk (str "Error: No such container:path web1:/data"))) = true := by
  decide

/-- Claim C3 (amended): the two classifications are not disjoint — every
error classified as path-not-found is also classified as
container-not-found, because the path match string extends the container
match string; the classifications remain distinct only in the other
direction: some error texts are container-not-found without being
path-not-found. -/
theorem pathNotFound_subsumed_by_containerNotFound :
    (∀ e : Option GoErr, isPathNotFound e = true → isContainerNotFoundError e = true) ∧
    (∃ e : GoErr, isContainerNotFoundError (some e) = true ∧
      isPathNotFound (some e) = false) := by
  constructor
  · intro e h
    cases e with
    | none => simp [isPathNotFound] at h
    | some e =>
      simp only [isPathNotFound, isContainerNotFoundError] at h ⊢
      have hsplit : str "No such container:path" = str "No such container" ++ str ":path" := by
        decide
      rw [hsplit] at h
      exact goContains_of_append _ _ _ h
  · exact ⟨GoErr.mk (str "Error: No such container: web1"), by decide, by decide⟩

/-- Witness for the amended C3 at a concrete error text. -/
theorem pathNotFound_subsumed_by_containerNotFound_witness :
    isContainerNotFoundError
        (some (GoErr.mk (str "No such container:path web1:/x"))) = true :=
  pathNotFound_subsumed_by_containerNotFound.1 _ (by decide)

/-- Claim C5: if decoding a header, writing a header, copying a payload,
or finalizing the output archive fails at any entry, readPath returns an
error tagged with the failing phase and no archive bytes — the result is
all-or-nothing. -/
theorem readPath_abort_on_codec_failure (path : List Char) (r : CopyOk)
    (h : streamFails r.stream = true ∨ r.closeErr.isSome = true) :
    ∃ e, readPath path (CopyResult.ok r) = Except.error e ∧ phaseWrapped e = true := by
  simp only [readPath]
  by_cases hs : streamFails r.stream = true
  · obtain ⟨e, he, hp⟩ := tarLoop_error_of_fails (filepathBase path) r.stream hs
    rw [he]
    exact ⟨e, rfl, hp⟩
  · have hs' : streamFails r.stream = false := by simpa using hs
    have ht := tarLoop_ok_of_not_fails (filepathBase path) r.stream hs'
    obtain ⟨e0, hcl⟩ : ∃ e0, r.closeErr = some e0 := by
      cases h with
      | inl h => exact absurd h hs
      | inr h => exact Option.isSome_iff_exists.mp h
    rw [ht, hcl]
    exact ⟨wrap (str "failed to close tar writer") e0, rfl,
      phaseWrapped_wrap _ e0 (by simp [phaseCtxs])⟩

/-- Witness for C5: a stream whose first header decode fails aborts the
extraction with a phase-tagged error. -/
theorem readPath_abort_on_codec_failure_witness :
    ∃ e,
      readPath (str "/data/logs")
          (CopyResult.ok
            (CopyOk.mk (TarStream.readError (GoErr.mk (str "unexpected EOF"))) none))
        = Except.error e ∧ phaseWrapped e = true :=
  readPath_abort_on_codec_failure _ _ (Or.inl (by decide))

/-- Claim C6: an entry whose name becomes empty after the
character-class strip is still written to the output archive with the
empty name, same payload and otherwise untouched header — it is neither
suppressed nor special-cased. -/
theorem readPath_empty_name_entry_kept (path : List Char) (r : CopyOk)
    (toks : List TarToken) (k : Nat) (ent : Entry)
    (h : readPath path (CopyResult.ok r) = Except.ok toks)
    (hk : (streamEntries r.stream)[k]? = some ent)
    (he : goTrimLeft ent.hdr.name (filepathBase path ++ ['/']) = []) :
    ∃ es, decodeTar toks = some es ∧
      es[k]? = some (Entry.mk (renameHdr ent.hdr []) ent.payload) := by
  obtain ⟨_, htoks⟩ := readPath_ok_inv path r toks h
  rw [htoks, decodeTar_encodeEntries]
  refine ⟨_, rfl, ?_⟩
  rw [List.getElem?_map, hk]
  simp [renameEntry, he]

/-- Witness for C6: the entry for the requested root directory itself
(name logs/, stripped to the empty name) is still written. -/
theorem readPath_empty_name_entry_kept_witness :
    ∃ es,
      decodeTar
          [TarToken.record (Entry.mk (Header.mk [] 5 493 0 0 0 0 []) []),
           TarToken.trailer]
        = some es ∧
      es[0]? = some
        (Entry.mk (renameHdr (Header.mk (str "logs/") 5 493 0 0 0 0 []) []) []) :=
  readPath_empty_name_entry_kept (str "/data/logs")
    (CopyOk.mk
      (TarStream.cons
        (EntryStep.mk (Entry.mk (Header.mk (str "logs/") 5 493 0 0 0 0 []) []) none none)
        TarStream.eof)
      none)
    _ 0 (Entry.mk (Header.mk (str "logs/") 5 493 0 0 0 0 []) [])
    rfl (by decide) (by decide)

/-- Claim C8: FindEnvironment on a name whose inspection error is
classified not-found returns the sentinel ErrMissingContainer having
performed only the inspect operation (no start attempt); and whenever it
returns a handle, the start operation was performed and succeeded before
the handle was returned. -/
theorem findEnvironment_notFound_and_lookup_implies_started
    (name : List Char) (o : DockerOracle) :
    (isContainerNotFoundError o.inspectErr = true →
      FindEnvironment name o = (Except.error ErrMissingContainer, [DockerOp.inspectOp])) ∧
    (∀ env, (FindEnvironment name o).1 = Except.ok env →
      DockerOp.startOp ∈ (FindEnvironment name o).2 ∧ o.startErr = none) := by
  constructor
  · intro h
    simp [FindEnvironment, h]
  · intro env h
    by_cases hnf : isContainerNotFoundError o.inspectErr = true
    · simp [FindEnvironment, hnf] at h
    · cases hi : o.inspectErr with
      | some e =>
        rw [hi] at hnf
        simp [FindEnvironment, hi, hnf] at h
      | none =>
        cases hs : o.startErr with
        | some e => simp [FindEnvironment, isContainerNotFoundError, hi, Start, hs] at h
        | none => simp [FindEnvironment, isContainerNotFoundError, hi, Start, hs]

/-- Witness for C8: a not-found inspection yields ErrMissingContainer
with only the inspect operation performed. -/
theorem findEnvironment_notFound_witness :
    FindEnvironment (str "web1")
        (DockerOracle.mk (some (GoErr.mk (str "Error: No such container: web1")))
          (ContainerJSON.mk 0) none none none)
      = (Except.error ErrMissingContainer, [DockerOp.inspectOp]) :=
  (findEnvironment_notFound_and_lookup_implies_started (str "web1")
    (DockerOracle.mk (some (GoErr.mk (str "Error: No such container: web1")))
      (ContainerJSON.mk 0) none none none)).1 (by decide)

/-- Claim C9: Purge runs Stop and then Remove in that order; a Stop
failure is returned unchanged and Remove is never invoked; if Stop
succeeds the result is exactly Remove's result, performed after Stop;
Purge succeeds exactly when both succeed. -/
theorem purge_stop_then_remove (o : DockerOracle) :
    (∀ e, (Stop o).1 = some e → Purge o = (some e, [DockerOp.stopOp])) ∧
    ((Stop o).1 = none →
      (Purge o).1 = (Remove o).1 ∧
      (Purge o).2 = [DockerOp.stopOp, DockerOp.removeOp]) ∧
    ((Purge o).1 = none ↔ (Stop o).1 = none ∧ (Remove o).1 = none) := by
  refine ⟨?_, ?_, ?_⟩
  · intro e h
    cases hst : o.stopErr with
    | none => simp [Stop, hst] at h
    | some e0 =>
      simp [Stop, hst] at h
      simp [Purge, Stop, hst, h]
  · intro h
    cases hst : o.stopErr with
    | some e0 => simp [Stop, hst] at h
    | none =>
      cases hrm : o.removeErr with
      | none => simp [Purge, Stop, Remove, hst, hrm]
      | some e1 => simp [Purge, Stop, Remove, hst, hrm]
  · cases hst : o.stopErr with
    | some e0 => simp [Purge, Stop, Remove, hst]
    | none =>
      cases hrm : o.removeErr with
      | none => simp [Purge, Stop, Remove, hst, hrm]
      | some e1 => simp [Purge, Stop, Remove, hst, hrm]

/-- Witness for C9: a failing Stop is surfaced unchanged and Remove is
not attempted. -/
theorem purge_stop_then_remove_witness :
    Purge (DockerOracle.mk none (ContainerJSON.mk 0) none
        (some (GoErr.mk (str "connection refused"))) none)
      = (some (wrap (str "failed to stop container") (GoErr.mk (str "connection refused"))),
         [DockerOp.stopOp]) :=
  (purge_stop_then_remove
    (DockerOracle.mk none (ContainerJSON.mk 0) none
      (some (GoErr.mk (str "connection refused"))) none)).1 _ rfl

end Env
